import Mathlib

/-!
Shallow embedding of the physics/motion core of the CallOfFerris repository.

Two source files are modelled:
* `src/components/player.rs` — the `Player` vertical-motion state machine
  (`new`, `go_boom`, `update`), embedded over `ℚ` (the source uses `f32`;
  all constants involved, `0.1` and `2.5`, are treated as exact rationals,
  matching the spec's exact-value arithmetic).
* `src/physics.rs` — the `Physics` facade over two generational arenas
  (`body_set`, `collider_set`), with the `create_*`, `get_rigid_body` and
  `destroy_body` operations.
-/

/-- State of `Player` from `src/components/player.rs` (fields in source order;
`pos_x`, `pos_y`, `velocity`, `gravity` are `f32` in the source, embedded as `ℚ`). -/
structure Player where
  pos_x : ℚ
  pos_y : ℚ
  ammo : ℤ
  gravity : ℚ
  velocity : ℚ
  going_boom : Bool

/-- `Player::new(pos_x)`: ammo 10, pos_y 0, gravity 0.1, velocity 0, going_boom false. -/
def Player.new (pos_x : ℚ) : Player :=
  { pos_x := pos_x
    ammo := 10
    pos_y := 0
    gravity := 1/10
    velocity := 0
    going_boom := false }

/-- `Player::go_boom`: `self.velocity -= 2.5; self.going_boom = true;`. -/
def Player.go_boom (p : Player) : Player :=
  { p with velocity := p.velocity - 5/2, going_boom := true }

/-- First block of `Player::update` (sub-step a): if `going_boom`, displace
`pos_y -= velocity`, then clamp to `0` and clear `going_boom` when `pos_y < 0`. -/
def Player.updA (p : Player) : Player :=
  if p.going_boom then
    let q := { p with pos_y := p.pos_y - p.velocity }
    if q.pos_y < 0 then { q with going_boom := false, pos_y := 0 } else q
  else p

/-- Second block of `Player::update` (sub-step b): if `pos_y > 0 || gonna_boom`,
apply gravity `velocity += gravity` then displace `pos_y -= velocity`. -/
def Player.updB (p : Player) (gonna_boom : Bool) : Player :=
  if p.pos_y > 0 ∨ gonna_boom = true then
    let q := { p with velocity := p.velocity + p.gravity }
    { q with pos_y := q.pos_y - q.velocity }
  else p

/-- `Player::update(gonna_boom)`: the two blocks run in sequence. -/
def Player.update (p : Player) (gonna_boom : Bool) : Player :=
  (p.updA).updB gonna_boom

/-- An externally triggered operation on the `Player` motion state:
either a `go_boom()` call or an `update(b)` call. -/
inductive POp where
  | boom : POp
  | upd : Bool → POp
deriving DecidableEq

/-- Apply one operation to a `Player` state. -/
def POp.apply (p : Player) : POp → Player
  | POp.boom => p.go_boom
  | POp.upd b => p.update b

/-- Run a sequence of operations from a `Player` state, first operation first. -/
def Player.run (p : Player) : List POp → Player
  | [] => p
  | o :: os => Player.run (POp.apply p o) os

/-- Iterate `update(false)` (one game tick each) `n` times. -/
def Player.ticks (p : Player) : Nat → Player
  | 0 => p
  | n+1 => (Player.ticks p n).update false

/-- The exact state of the launch arc after `n` ticks of `update false` following
a single `go_boom` from `Player.new 0`: a quadratic rise-and-fall for `n ≤ 50`,
then the rest state with residual velocity `5/2` from tick `51` on. -/
def arcState (n : ℕ) : Player :=
  if n ≤ 50 then
    Player.mk 0 ((625 - ((n:ℚ) - 25)^2)/10) 10 (1/10) (((n:ℚ) - 25)/10) true
  else
    Player.mk 0 0 10 (1/10) (5/2) false

/-- The invariant that whenever `going_boom` is false the player is anchored at
`pos_y = 0`; preserved by `go_boom` and by `update false`. -/
def Anchored (p : Player) : Prop := p.going_boom = false → p.pos_y = 0

/-! ### Embedding of `src/physics.rs` -/

/-- `ObjectData`: the semantic tag attached to each collider at creation. -/
inductive ObjectData where
  | Ground
  | Player
  | Enemy
  | Bullet
  | Barrel
deriving DecidableEq

/-- Kinematic status of a rigid body (nphysics2d `BodyStatus`; only the two
variants this repository uses are modelled). -/
inductive BodyStatus where
  | Static
  | Dynamic
deriving DecidableEq

/-- The attributes of a rigid body that `src/physics.rs` sets through
`RigidBodyDesc`: position, mass, linear damping, status. Attributes the source
leaves unset keep the descriptor defaults (mass `0`, damping `0`). -/
structure RigidBody where
  position : ℚ × ℚ
  mass : ℚ
  linearDamping : ℚ
  status : BodyStatus

/-- A generational-arena handle: slot index and generation
(nphysics2d `DefaultBodyHandle`). -/
abbrev Handle := Nat × Nat

/-- The attributes of a collider built in `src/physics.rs`: box half-extents,
`BasicMaterial::new(restitution, friction)` (both `0.0`), the `ObjectData`
user tag, and the parent `BodyPartHandle(handle, 0)`. -/
structure Collider where
  halfExtents : ℚ × ℚ
  restitution : ℚ
  friction : ℚ
  userData : Option ObjectData
  parent : Handle
  part : Nat

/-- A generational arena, modelling the nphysics2d stores behind
`DefaultBodySet` / `DefaultColliderSet`: a list of slots, each carrying a
generation that is bumped on removal so stale handles never resolve again. -/
structure Arena (α : Type) where
  slots : List (Nat × Option α)

/-- Insert into the first free slot (keeping its generation), or append a fresh
slot at generation `0`; returns the new slot list and the handle. -/
def insertSlots {α : Type} : List (Nat × Option α) → α → List (Nat × Option α) × Handle
  | [], x => ([(0, some x)], (0, 0))
  | (g, none) :: rest, x => ((g, some x) :: rest, (0, g))
  | (g, some y) :: rest, x =>
      let r := insertSlots rest x
      ((g, some y) :: r.1, (r.2.1 + 1, r.2.2))

/-- Free the slot at index `i` when it is live and its generation matches,
bumping the generation; otherwise leave the list unchanged. -/
def removeSlots {α : Type} : List (Nat × Option α) → Nat → Nat → List (Nat × Option α)
  | [], _, _ => []
  | (g, some y) :: rest, 0, gen => if g = gen then (g + 1, none) :: rest else (g, some y) :: rest
  | (g, none) :: rest, 0, _ => (g, none) :: rest
  | sl :: rest, i + 1, gen => sl :: removeSlots rest i gen

/-- Resolve index `i` at generation `gen`: the stored value when the slot's
generation matches, `none` otherwise. -/
def getSlots {α : Type} : List (Nat × Option α) → Nat → Nat → Option α
  | [], _, _ => none
  | (g, v) :: _, 0, gen => if g = gen then v else none
  | _ :: rest, i + 1, gen => getSlots rest i gen

/-- `Arena::insert`: returns the updated arena and the handle of the entry. -/
def Arena.insert {α : Type} (a : Arena α) (x : α) : Arena α × Handle :=
  (⟨(insertSlots a.slots x).1⟩, (insertSlots a.slots x).2)

/-- `Arena::remove`. -/
def Arena.remove {α : Type} (a : Arena α) (h : Handle) : Arena α :=
  ⟨removeSlots a.slots h.1 h.2⟩

/-- `Arena::get` / handle resolution. -/
def Arena.get {α : Type} (a : Arena α) (h : Handle) : Option α :=
  getSlots a.slots h.1 h.2

/-- The `Physics` struct of `src/physics.rs`, restricted to the two stores the
claims are about; the engine worlds (mechanical, geometrical, joint and force
sets) carry no state any claim mentions. -/
structure Physics where
  body_set : Arena RigidBody
  collider_set : Arena Collider

/-- `Physics::GRAVITY = 50.8`. -/
def Physics.GRAVITY : ℚ := 254/5

/-- `Physics::new()`: empty stores. -/
def Physics.new : Physics := ⟨⟨[]⟩, ⟨[]⟩⟩

/-- `Physics::create_tile`: static ground body plus `Ground`-tagged box collider
shrunk by `0.01` per half-axis. -/
def Physics.create_tile (s : Physics) (pos : ℚ × ℚ) (width height : Nat) : Physics × Handle :=
  let w : ℚ := width
  let h : ℚ := height
  let ground : RigidBody :=
    { position := pos, mass := 0, linearDamping := 0, status := BodyStatus.Static }
  let bres := s.body_set.insert ground
  let collider : Collider :=
    { halfExtents := (w / 2 - 1/100, h / 2 - 1/100), restitution := 0, friction := 0,
      userData := some ObjectData.Ground, parent := bres.2, part := 0 }
  let cres := s.collider_set.insert collider
  ({ body_set := bres.1, collider_set := cres.1 }, bres.2)

/-- `Physics::create_player`: dynamic body (mass 10, linear damping 1) plus
`Player`-tagged box collider. -/
def Physics.create_player (s : Physics) (pos : ℚ × ℚ) (width height : Nat) : Physics × Handle :=
  let w : ℚ := width
  let h : ℚ := height
  let player : RigidBody :=
    { position := pos, mass := 10, linearDamping := 1, status := BodyStatus.Dynamic }
  let bres := s.body_set.insert player
  let collider : Collider :=
    { halfExtents := (w / 2 - 1/100, h / 2 - 1/100), restitution := 0, friction := 0,
      userData := some ObjectData.Player, parent := bres.2, part := 0 }
  let cres := s.collider_set.insert collider
  ({ body_set := bres.1, collider_set := cres.1 }, bres.2)

/-- `Physics::create_enemy`: dynamic body (mass 10, linear damping 1) plus
`Enemy`-tagged box collider. -/
def Physics.create_enemy (s : Physics) (pos : ℚ × ℚ) (width height : Nat) : Physics × Handle :=
  let w : ℚ := width
  let h : ℚ := height
  let enemy : RigidBody :=
    { position := pos, mass := 10, linearDamping := 1, status := BodyStatus.Dynamic }
  let bres := s.body_set.insert enemy
  let collider : Collider :=
    { halfExtents := (w / 2 - 1/100, h / 2 - 1/100), restitution := 0, friction := 0,
      userData := some ObjectData.Enemy, parent := bres.2, part := 0 }
  let cres := s.collider_set.insert collider
  ({ body_set := bres.1, collider_set := cres.1 }, bres.2)

/-- `Physics::create_barrel`: dynamic body (mass 10, linear damping 1) plus
`Barrel`-tagged box collider. -/
def Physics.create_barrel (s : Physics) (pos : ℚ × ℚ) (width height : Nat) : Physics × Handle :=
  let w : ℚ := width
  let h : ℚ := height
  let barrel : RigidBody :=
    { position := pos, mass := 10, linearDamping := 1, status := BodyStatus.Dynamic }
  let bres := s.body_set.insert barrel
  let collider : Collider :=
    { halfExtents := (w / 2 - 1/100, h / 2 - 1/100), restitution := 0, friction := 0,
      userData := some ObjectData.Barrel, parent := bres.2, part := 0 }
  let cres := s.collider_set.insert collider
  ({ body_set := bres.1, collider_set := cres.1 }, bres.2)

/-- `Physics::create_bullet`: dynamic body (mass 10, linear damping 1) plus
`Bullet`-tagged box collider. -/
def Physics.create_bullet (s : Physics) (pos : ℚ × ℚ) (width height : Nat) : Physics × Handle :=
  let w : ℚ := width
  let h : ℚ := height
  let bullet : RigidBody :=
    { position := pos, mass := 10, linearDamping := 1, status := BodyStatus.Dynamic }
  let bres := s.body_set.insert bullet
  let collider : Collider :=
    { halfExtents := (w / 2 - 1/100, h / 2 - 1/100), restitution := 0, friction := 0,
      userData := some ObjectData.Bullet, parent := bres.2, part := 0 }
  let cres := s.collider_set.insert collider
  ({ body_set := bres.1, collider_set := cres.1 }, bres.2)

/-- `Physics::get_rigid_body`: resolves the handle, failing fatally (the
source's `expect("Body not found!")`, modelled as `Except.error`) when it does
not resolve to a live body. -/
def Physics.get_rigid_body (s : Physics) (handle : Handle) : Except String RigidBody :=
  match s.body_set.get handle with
  | some body => Except.ok body
  | none => Except.error "Body not found!"

/-- `Physics::destroy_body`: `self.body_set.remove(handle);
self.collider_set.remove(handle);` — note both removals use the same `handle`. -/
def Physics.destroy_body (s : Physics) (handle : Handle) : Physics :=
  { body_set := s.body_set.remove handle, collider_set := s.collider_set.remove handle }

/-- A registry operation: one of the `create_*` calls or `destroy_body`. -/
inductive PhysOp where
  | tile (pos : ℚ × ℚ) (w h : Nat)
  | player (pos : ℚ × ℚ) (w h : Nat)
  | enemy (pos : ℚ × ℚ) (w h : Nat)
  | barrel (pos : ℚ × ℚ) (w h : Nat)
  | bullet (pos : ℚ × ℚ) (w h : Nat)
  | destroy (h : Handle)

/-- Apply a registry operation (discarding the returned handle). -/
def PhysOp.apply (s : Physics) : PhysOp → Physics
  | PhysOp.tile pos w h => (s.create_tile pos w h).1
  | PhysOp.player pos w h => (s.create_player pos w h).1
  | PhysOp.enemy pos w h => (s.create_enemy pos w h).1
  | PhysOp.barrel pos w h => (s.create_barrel pos w h).1
  | PhysOp.bullet pos w h => (s.create_bullet pos w h).1
  | PhysOp.destroy h => s.destroy_body h

/-- Run a sequence of registry operations, first operation first. -/
def Physics.runOps (s : Physics) : List PhysOp → Physics
  | [] => s
  | o :: os => Physics.runOps (PhysOp.apply s o) os

/-- The slot at index `i`, if the index is in range. -/
def slotAt {α : Type} : List (Nat × Option α) → Nat → Option (Nat × Option α)
  | [], _ => none
  | sl :: _, 0 => some sl
  | _ :: rest, i + 1 => slotAt rest i

/-- The occupancy shape of a slot: its generation and whether it is live. -/
def slotBit {α : Type} (sl : Nat × Option α) : Nat × Bool := (sl.1, sl.2.isSome)

/-- The occupancy shape of an arena. -/
def Arena.shape {α : Type} (a : Arena α) : List (Nat × Bool) := a.slots.map slotBit

/-- Every live collider slot records its own index and generation as its
parent body handle: true of every state built through the registry, because
each `create_*` inserts one body and one collider in lockstep. -/
def ParentInv (s : Physics) : Prop :=
  ∀ i g c, slotAt s.collider_set.slots i = some (g, some c) → c.parent = (i, g)

/-- The lockstep invariant of the two stores: equal occupancy shapes, and
every collider parented to its own slot. -/
def PhysInv (s : Physics) : Prop :=
  s.body_set.shape = s.collider_set.shape ∧ ParentInv s

/-! ### Helper lemmas about the `Player` motion state machine -/

/-- At rest (`pos_y = 0`, `going_boom = false`), `update false` changes nothing:
sub-step a is skipped and sub-step b's guard `pos_y > 0 || gonna_boom` is false. -/
lemma update_false_rest (p : Player) (h0 : p.pos_y = 0) (hb : p.going_boom = false) :
    p.update false = p := by
  unfold Player.update Player.updA Player.updB
  simp [h0, hb]

/-- One airborne tick of `update false` in closed form: with velocity `m/10` and
height `(625 - m^2)/10` (tenths of the exact trajectory), a tick moves to `m+1`. -/
lemma update_false_arc (m : ℚ) (h1 : -25 ≤ m) (h2 : m ≤ 24) :
    (Player.mk 0 ((625 - m^2)/10) 10 (1/10) (m/10) true).update false
      = Player.mk 0 ((625 - (m+1)^2)/10) 10 (1/10) ((m+1)/10) true := by
  have key : (m - 24) * (m + 25) ≤ 0 :=
    mul_nonpos_of_nonpos_of_nonneg (by linarith) (by linarith)
  have hpos : (0:ℚ) < (625 - m^2)/10 - m/10 := by nlinarith
  have hnc : ¬((625 - m^2)/10 - m/10 < 0) := not_lt.mpr hpos.le
  unfold Player.update Player.updA Player.updB
  simp [hnc, hpos, Player.mk.injEq]
  constructor <;> ring

/-- The launch trajectory from `(Player.new 0).go_boom` follows `arcState`. -/
lemma ticks_arc (n : ℕ) : ((Player.new 0).go_boom).ticks n = arcState n := by
  induction n with
  | zero =>
    rw [Player.ticks, arcState, if_pos (by omega)]
    unfold Player.new Player.go_boom
    norm_num
  | succ n ih =>
    rw [Player.ticks, ih]
    by_cases h : n ≤ 49
    · rw [arcState, if_pos (by omega : n ≤ 50)]
      rw [update_false_arc ((n:ℚ) - 25)
        (by have h0 : (0:ℚ) ≤ (n:ℚ) := Nat.cast_nonneg n
            linarith)
        (by have hc : (n:ℚ) ≤ 49 := by exact_mod_cast h
            linarith)]
      rw [arcState, if_pos (by omega : n + 1 ≤ 50)]
      simp only [Player.mk.injEq]
      refine ⟨trivial, by push_cast; ring, trivial, trivial, by push_cast; ring, trivial⟩
    · by_cases h50 : n = 50
      · subst h50
        rw [arcState, if_pos (by omega), arcState, if_neg (by omega)]
        unfold Player.update Player.updA Player.updB
        norm_num
      · have h51 : ¬ n ≤ 50 := by omega
        rw [arcState, if_neg h51, arcState, if_neg (by omega)]
        exact update_false_rest _ rfl rfl

lemma anchored_go_boom (p : Player) : Anchored p.go_boom := by
  intro hb
  simp [Player.go_boom] at hb

lemma anchored_update_false (p : Player) (hp : Anchored p) : Anchored (p.update false) := by
  unfold Player.update Player.updA Player.updB Anchored
  by_cases hb : p.going_boom
  · simp only [hb, if_pos rfl]
    by_cases hc : p.pos_y - p.velocity < 0
    · simp [hc]
    · simp only [hc, if_neg hc]
      by_cases hq : p.pos_y - p.velocity > 0
      · simp [hb, hq]
      · simp [hb, hq]
  · have h0 : p.pos_y = 0 := hp (by simpa using hb)
    simp [hb, h0]

lemma anchored_run (p : Player) (ops : List POp) (hp : Anchored p)
    (hops : ∀ o ∈ ops, o ≠ POp.upd true) : Anchored (p.run ops) := by
  induction ops generalizing p with
  | nil => exact hp
  | cons o os ih =>
    rw [Player.run]
    refine ih (POp.apply p o) ?_ (fun o ho => hops o (List.mem_cons_of_mem _ ho))
    match o with
    | POp.boom => exact anchored_go_boom p
    | POp.upd b =>
      have : b = false := by
        have := hops (POp.upd b) (List.mem_cons_self _ _)
        cases b
        · rfl
        · simp at this
      subst this
      exact anchored_update_false p hp

/-! ### Claims about the `Player` motion state machine -/

/-- C1: from the initial motion state (`Player.new`), `go_boom()` yields
`velocity = -2.5` and `going_boom = true`; one `update(false)` then passes
through `pos_y = 2.5` with `going_boom` still true after sub-step a, and ends
with `velocity = -2.4` and `pos_y = 4.9` after sub-step b. -/
theorem goBoom_then_update_concrete_values :
    ((Player.new 0).go_boom).velocity = -(5/2) ∧
    ((Player.new 0).go_boom).going_boom = true ∧
    (((Player.new 0).go_boom).updA).pos_y = 5/2 ∧
    (((Player.new 0).go_boom).updA).going_boom = true ∧
    (((Player.new 0).go_boom).update false).velocity = -(12/5) ∧
    (((Player.new 0).go_boom).update false).pos_y = 49/10 := by
  refine ⟨?_, ?_, ?_, ?_, ?_, ?_⟩ <;>
    norm_num [Player.new, Player.go_boom, Player.update, Player.updA, Player.updB]

/-- C2 counterexample: from the initial state, the single call `update(true)`
reaches a state with `going_boom = false` and `pos_y = -1/10 < 0`: sub-step b's
guard passes on `gonna_boom` alone, pushing `pos_y` below zero while
`going_boom` stays false. -/
theorem rest_update_true_negative_pos :
    ((Player.new 0).run [POp.upd true]).going_boom = false ∧
    ((Player.new 0).run [POp.upd true]).pos_y < 0 := by
  constructor <;>
    norm_num [Player.run, POp.apply, Player.new, Player.update, Player.updA, Player.updB]

/-- C2 (amended): for every state reachable from the initial state by `go_boom()`
calls and `update(false)` calls (no `update(true)`), whenever `going_boom` is
false, `pos_y` is non-negative (indeed exactly `0`). -/
theorem launched_false_pos_nonneg (x : ℚ) (ops : List POp)
    (hops : ∀ o ∈ ops, o ≠ POp.upd true)
    (hb : ((Player.new x).run ops).going_boom = false) :
    0 ≤ ((Player.new x).run ops).pos_y := by
  have hA : Anchored ((Player.new x).run ops) :=
    anchored_run (Player.new x) ops (fun _ => rfl) hops
  rw [hA hb]

/-- Witness for C2 (amended) at `x = 0`, `ops = [update false]`. -/
theorem launched_false_pos_nonneg_witness :
    0 ≤ ((Player.new 0).run [POp.upd false]).pos_y :=
  launched_false_pos_nonneg 0 [POp.upd false]
    (by intro o ho
        simp only [List.mem_cons, List.not_mem_nil, or_false] at ho
        simp [ho])
    (by norm_num [Player.run, POp.apply, Player.new, Player.update,
          Player.updA, Player.updB])

/-- C3: from rest, after one `go_boom()`, some finite number of `update(false)`
ticks (namely 51) returns the state to `pos_y = 0` with `going_boom = false`. -/
theorem launch_trajectory_terminates :
    ∃ n : ℕ, (((Player.new 0).go_boom).ticks n).pos_y = 0 ∧
      (((Player.new 0).go_boom).ticks n).going_boom = false := by
  refine ⟨51, ?_, ?_⟩ <;> rw [ticks_arc, arcState, if_neg (by omega)]

/-- C4: from rest, after one `go_boom()` followed by any number of
`update(false)` ticks, `pos_y` is non-negative at the end of every tick. -/
theorem launch_trajectory_pos_nonneg (n : ℕ) :
    0 ≤ (((Player.new 0).go_boom).ticks n).pos_y := by
  rw [ticks_arc, arcState]
  by_cases h : n ≤ 50
  · rw [if_pos h]
    have h0 : (0:ℚ) ≤ (n:ℚ) := Nat.cast_nonneg n
    have hc : (n:ℚ) ≤ 50 := by exact_mod_cast h
    have : ((n:ℚ) - 25)^2 ≤ 625 := by nlinarith
    simp only
    linarith
  · rw [if_neg h]

/-- C8: on any state with `gravity = 0.1` and `pos_y > 0`, an `update(true)`
tick adds exactly `0.1` to `velocity` (a strict increase), whatever the value
of `going_boom`. -/
theorem update_true_velocity_gains_gravity (p : Player)
    (hg : p.gravity = 1/10) (_hpos : 0 < p.pos_y) :
    (p.update true).velocity = p.velocity + 1/10 ∧
    p.velocity < (p.update true).velocity := by
  have hvel : (p.update true).velocity = p.velocity + p.gravity := by
    unfold Player.update Player.updA Player.updB
    by_cases hb : p.going_boom <;>
      by_cases hc : p.pos_y - p.velocity < 0 <;>
        simp [hb, hc]
  rw [hvel, hg]
  exact ⟨rfl, by linarith⟩

/-- Witness for C8 at the state `⟨0, 1, 10, 1/10, 0, false⟩`. -/
theorem update_true_velocity_gains_gravity_witness :
    ((Player.mk 0 1 10 (1/10) 0 false).update true).velocity
        = (Player.mk 0 1 10 (1/10) 0 false).velocity + 1/10 ∧
    (Player.mk 0 1 10 (1/10) 0 false).velocity
        < ((Player.mk 0 1 10 (1/10) 0 false).update true).velocity :=
  update_true_velocity_gains_gravity (Player.mk 0 1 10 (1/10) 0 false) rfl (by norm_num)

/-- C9: when the clamp of sub-step a fires (`going_boom = true` and
`pos_y - velocity < 0`), only `pos_y` (set to `0`) and `going_boom` (set to
`false`) change; `velocity` keeps its value, so a following `go_boom()`
subtracts `2.5` from the residual velocity, not from `0`. -/
theorem clamp_keeps_residual_velocity (p : Player)
    (hb : p.going_boom = true) (hc : p.pos_y - p.velocity < 0) :
    p.updA = { p with pos_y := 0, going_boom := false } ∧
    ((p.updA).go_boom).velocity = p.velocity - 5/2 := by
  have hA : p.updA = { p with pos_y := 0, going_boom := false } := by
    unfold Player.updA
    simp [hb, hc]
  exact ⟨hA, by rw [hA]; rfl⟩

/-- Witness for C9 at the state `⟨0, 0, 10, 1/10, 5/2, true⟩`. -/
theorem clamp_keeps_residual_velocity_witness :
    (Player.mk 0 0 10 (1/10) (5/2) true).updA
        = { Player.mk 0 0 10 (1/10) (5/2) true with pos_y := 0, going_boom := false } ∧
    (((Player.mk 0 0 10 (1/10) (5/2) true).updA).go_boom).velocity
        = (Player.mk 0 0 10 (1/10) (5/2) true).velocity - 5/2 :=
  clamp_keeps_residual_velocity (Player.mk 0 0 10 (1/10) (5/2) true) rfl (by norm_num)

/-- C10: on any rest state (`pos_y = 0`, `going_boom = false`), `update(false)`
is the identity, whatever `velocity` holds: every field is unchanged. -/
theorem update_false_rest_identity (p : Player)
    (h0 : p.pos_y = 0) (hb : p.going_boom = false) :
    p.update false = p :=
  update_false_rest p h0 hb

/-- Witness for C10 at the rest state with residual velocity `7`. -/
theorem update_false_rest_identity_witness :
    (Player.mk 0 0 10 (1/10) 7 false).update false = Player.mk 0 0 10 (1/10) 7 false :=
  update_false_rest_identity (Player.mk 0 0 10 (1/10) 7 false) rfl rfl

/-! ### Arena lemmas -/

/-- A handle resolves exactly when its slot holds a live value at a matching
generation. -/
lemma getSlots_eq_some {α : Type} :
    ∀ (l : List (Nat × Option α)) (i gen : Nat) (x : α),
      getSlots l i gen = some x ↔ slotAt l i = some (gen, some x) := by
  intro l
  induction l with
  | nil => intro i gen x; cases i <;> simp [getSlots, slotAt]
  | cons sl rest ih =>
    intro i gen x
    obtain ⟨g, v⟩ := sl
    cases i with
    | zero =>
      by_cases hg : g = gen
      · subst hg; simp [getSlots, slotAt]
      · simp [getSlots, slotAt, hg]
    | succ i => simp [getSlots, slotAt, ih]

/-- After `removeSlots` at a handle, that handle no longer resolves. -/
lemma getSlots_removeSlots {α : Type} :
    ∀ (l : List (Nat × Option α)) (i gen : Nat),
      getSlots (removeSlots l i gen) i gen = none := by
  intro l
  induction l with
  | nil => intro i gen; cases i <;> simp [removeSlots, getSlots]
  | cons sl rest ih =>
    intro i gen
    obtain ⟨g, v⟩ := sl
    cases i with
    | zero =>
      cases v with
      | none => simp [removeSlots, getSlots]
      | some y =>
        by_cases hg : g = gen
        · subst hg
          simp [removeSlots, getSlots]
        · simp [removeSlots, getSlots, hg]
    | succ i => cases v <;> simp [removeSlots, getSlots, ih]

/-- `removeSlots` never creates a live slot: a live slot of the result was
already present unchanged. -/
lemma slotAt_removeSlots_live {α : Type} :
    ∀ (l : List (Nat × Option α)) (i gen j g : Nat) (c : α),
      slotAt (removeSlots l i gen) j = some (g, some c) →
      slotAt l j = some (g, some c) := by
  intro l
  induction l with
  | nil => intro i gen j g c h; cases i <;> simpa [removeSlots] using h
  | cons sl rest ih =>
    intro i gen j g c h
    obtain ⟨g0, v⟩ := sl
    cases i with
    | zero =>
      cases v with
      | none => simpa [removeSlots] using h
      | some y =>
        by_cases hg : g0 = gen
        · rw [removeSlots, if_pos hg] at h
          cases j with
          | zero => simp [slotAt] at h
          | succ j => simpa [slotAt] using h
        · rw [removeSlots, if_neg hg] at h
          exact h
    | succ i =>
      cases j with
      | zero => cases v <;> exact h
      | succ j =>
        cases v with
        | none =>
          rw [removeSlots] at h
          simp only [slotAt] at h ⊢
          exact ih i gen j g c h
        | some y =>
          rw [removeSlots] at h
          simp only [slotAt] at h ⊢
          exact ih i gen j g c h

/-- The slot `insertSlots` fills holds the inserted value at the handle's
index and generation. -/
lemma slotAt_insertSlots_self {α : Type} :
    ∀ (l : List (Nat × Option α)) (x : α),
      slotAt (insertSlots l x).1 (insertSlots l x).2.1
        = some ((insertSlots l x).2.2, some x) := by
  intro l
  induction l with
  | nil => intro x; simp [insertSlots, slotAt]
  | cons sl rest ih =>
    intro x
    obtain ⟨g, v⟩ := sl
    cases v with
    | none => simp [insertSlots, slotAt]
    | some y => simpa [insertSlots, slotAt] using ih x

/-- `insertSlots` leaves every other slot unchanged. -/
lemma slotAt_insertSlots_other {α : Type} :
    ∀ (l : List (Nat × Option α)) (x : α) (j : Nat),
      j ≠ (insertSlots l x).2.1 → slotAt (insertSlots l x).1 j = slotAt l j := by
  intro l
  induction l with
  | nil =>
    intro x j hj
    cases j with
    | zero => simp [insertSlots] at hj
    | succ j => simp [insertSlots, slotAt]
  | cons sl rest ih =>
    intro x j hj
    obtain ⟨g, v⟩ := sl
    cases v with
    | none =>
      cases j with
      | zero => simp [insertSlots] at hj
      | succ j => simp [insertSlots, slotAt]
    | some y =>
      cases j with
      | zero => simp [insertSlots, slotAt]
      | succ j =>
        have hj2 : j ≠ (insertSlots rest x).2.1 := by
          intro hEq
          exact hj (by simp [insertSlots, hEq])
        simpa [insertSlots, slotAt] using ih x j hj2

/-- Two slot lists with the same occupancy shape have, at every index, slots
with the same generation and liveness. -/
lemma slotAt_bits {α β : Type} :
    ∀ (l1 : List (Nat × Option α)) (l2 : List (Nat × Option β)),
      l1.map slotBit = l2.map slotBit →
      ∀ j, (slotAt l1 j).map slotBit = (slotAt l2 j).map slotBit := by
  intro l1
  induction l1 with
  | nil =>
    intro l2 hb j
    cases l2 with
    | nil => rfl
    | cons sl l2 => simp at hb
  | cons sl1 rest1 ih =>
    intro l2 hb j
    cases l2 with
    | nil => simp at hb
    | cons sl2 rest2 =>
      simp only [List.map_cons, List.cons.injEq] at hb
      cases j with
      | zero => simp [slotAt, hb.1]
      | succ j => simpa [slotAt] using ih rest2 hb.2 j

/-- Inserting into two shape-equal slot lists returns the same handle and
keeps the shapes equal. -/
lemma insertSlots_bits {α β : Type} :
    ∀ (l1 : List (Nat × Option α)) (l2 : List (Nat × Option β)) (x : α) (y : β),
      l1.map slotBit = l2.map slotBit →
      (insertSlots l1 x).2 = (insertSlots l2 y).2 ∧
      ((insertSlots l1 x).1).map slotBit = ((insertSlots l2 y).1).map slotBit := by
  intro l1
  induction l1 with
  | nil =>
    intro l2 x y hb
    cases l2 with
    | nil => simp [insertSlots, slotBit]
    | cons sl l2 => simp at hb
  | cons sl1 rest1 ih =>
    intro l2 x y hb
    cases l2 with
    | nil => simp at hb
    | cons sl2 rest2 =>
      obtain ⟨g1, v1⟩ := sl1
      obtain ⟨g2, v2⟩ := sl2
      cases v1 <;> cases v2 <;> simp [slotBit] at hb
      · obtain ⟨hg, htail⟩ := hb
        subst hg
        simp [insertSlots, slotBit, htail]
      · obtain ⟨hg, htail⟩ := hb
        subst hg
        have hrec := ih rest2 x y htail
        refine ⟨?_, ?_⟩
        · simp [insertSlots, hrec.1]
        · simp [insertSlots, slotBit, hrec.2]

/-- Removing the same handle from two shape-equal slot lists keeps the shapes
equal. -/
lemma removeSlots_bits {α β : Type} :
    ∀ (l1 : List (Nat × Option α)) (l2 : List (Nat × Option β)) (i gen : Nat),
      l1.map slotBit = l2.map slotBit →
      (removeSlots l1 i gen).map slotBit = (removeSlots l2 i gen).map slotBit := by
  intro l1
  induction l1 with
  | nil =>
    intro l2 i gen hb
    cases l2 with
    | nil => cases i <;> rfl
    | cons sl l2 => simp at hb
  | cons sl1 rest1 ih =>
    intro l2 i gen hb
    cases l2 with
    | nil => simp at hb
    | cons sl2 rest2 =>
      obtain ⟨g1, v1⟩ := sl1
      obtain ⟨g2, v2⟩ := sl2
      cases v1 <;> cases v2 <;> simp [slotBit] at hb
      · obtain ⟨hg, htail⟩ := hb
        subst hg
        cases i with
        | zero => simp [removeSlots, slotBit, htail]
        | succ i => simp [removeSlots, slotBit, ih rest2 i gen htail]
      · obtain ⟨hg, htail⟩ := hb
        subst hg
        cases i with
        | zero =>
          by_cases hgen : g1 = gen
          · simp [removeSlots, hgen, slotBit, htail]
          · simp [removeSlots, hgen, slotBit, htail]
        | succ i => simp [removeSlots, slotBit, ih rest2 i gen htail]

/-- Resolution through `Arena.get`, characterised by the slot contents. -/
lemma Arena.get_eq_some {α : Type} (a : Arena α) (h : Handle) (x : α) :
    a.get h = some x ↔ slotAt a.slots h.1 = some (h.2, some x) :=
  getSlots_eq_some a.slots h.1 h.2 x

/-- A removed handle never resolves again. -/
lemma Arena.get_remove {α : Type} (a : Arena α) (h : Handle) :
    (a.remove h).get h = none :=
  getSlots_removeSlots a.slots h.1 h.2

/-- An inserted entry resolves at its returned handle. -/
lemma Arena.get_insert_self {α : Type} (a : Arena α) (x : α) :
    (a.insert x).1.get (a.insert x).2 = some x := by
  rw [Arena.get_eq_some]
  exact slotAt_insertSlots_self a.slots x

/-- A live slot of a shape-equal list is live at the same index and
generation. -/
lemma slot_live_transfer {α β : Type} (l1 : List (Nat × Option α))
    (l2 : List (Nat × Option β)) (hb : l1.map slotBit = l2.map slotBit)
    (i g : Nat) (x : α) (h : slotAt l1 i = some (g, some x)) :
    ∃ y : β, slotAt l2 i = some (g, some y) := by
  have hbit := slotAt_bits l1 l2 hb i
  rw [h] at hbit
  rcases hl : slotAt l2 i with _ | ⟨g2, v2⟩
  · rw [hl] at hbit
    simp [slotBit] at hbit
  · rcases v2 with _ | y
    · rw [hl] at hbit
      simp [slotBit] at hbit
    · rw [hl] at hbit
      simp [slotBit] at hbit
      subst hbit
      exact ⟨y, rfl⟩

lemma physInv_new : PhysInv Physics.new := by
  refine ⟨rfl, ?_⟩
  intro i g c h
  have hnone : slotAt Physics.new.collider_set.slots i
      = (none : Option (Nat × Option Collider)) := by
    cases i <;> rfl
  rw [hnone] at h
  exact Option.noConfusion h

/-- Inserting a body and then its collider (parented at the body's handle)
preserves the lockstep invariant. -/
lemma physInv_insert_pair (s : Physics) (hInv : PhysInv s) (b : RigidBody) (c : Collider)
    (hc : c.parent = (s.body_set.insert b).2) :
    PhysInv ⟨(s.body_set.insert b).1, (s.collider_set.insert c).1⟩ := by
  obtain ⟨hsh, hpar⟩ := hInv
  have hbits := insertSlots_bits s.body_set.slots s.collider_set.slots b c hsh
  constructor
  · exact hbits.2
  · intro i g c2 hslot
    change slotAt (insertSlots s.collider_set.slots c).1 i = some (g, some c2) at hslot
    by_cases hi : i = (insertSlots s.collider_set.slots c).2.1
    · subst hi
      have hself := slotAt_insertSlots_self s.collider_set.slots c
      rw [hself] at hslot
      simp only [Option.some.injEq, Prod.mk.injEq] at hslot
      obtain ⟨hg, hcc⟩ := hslot
      have hcc2 : c = c2 := by simpa using hcc
      rw [← hcc2, hc]
      have : (s.body_set.insert b).2 = (insertSlots s.collider_set.slots c).2 := hbits.1
      rw [this, ← hg]
    · rw [slotAt_insertSlots_other s.collider_set.slots c i hi] at hslot
      exact hpar i g c2 hslot

/-- `destroy_body` preserves the lockstep invariant. -/
lemma physInv_destroy (s : Physics) (hInv : PhysInv s) (h : Handle) :
    PhysInv (s.destroy_body h) := by
  obtain ⟨hsh, hpar⟩ := hInv
  constructor
  · exact removeSlots_bits s.body_set.slots s.collider_set.slots h.1 h.2 hsh
  · intro i g c hslot
    exact hpar i g c (slotAt_removeSlots_live s.collider_set.slots h.1 h.2 i g c hslot)

lemma physInv_apply (s : Physics) (hInv : PhysInv s) (o : PhysOp) :
    PhysInv (PhysOp.apply s o) := by
  cases o with
  | tile pos w h => exact physInv_insert_pair s hInv _ _ rfl
  | player pos w h => exact physInv_insert_pair s hInv _ _ rfl
  | enemy pos w h => exact physInv_insert_pair s hInv _ _ rfl
  | barrel pos w h => exact physInv_insert_pair s hInv _ _ rfl
  | bullet pos w h => exact physInv_insert_pair s hInv _ _ rfl
  | destroy h => exact physInv_destroy s hInv h

lemma physInv_runOps (ops : List PhysOp) :
    ∀ s : Physics, PhysInv s → PhysInv (s.runOps ops) := by
  induction ops with
  | nil => intro s hInv; exact hInv
  | cons o os ih =>
    intro s hInv
    rw [Physics.runOps]
    exact ih (PhysOp.apply s o) (physInv_apply s hInv o)

/-- In any state satisfying the lockstep invariant, a live body handle has its
own collider stored at the same identifier, and `destroy_body` removes both. -/
lemma physInv_destroy_own (s : Physics) (hInv : PhysInv s) (h : Handle)
    (b : RigidBody) (hb : s.body_set.get h = some b) :
    ∃ c : Collider,
      s.collider_set.get h = some c ∧ c.parent = h ∧
      (∀ h2 c2, s.collider_set.get h2 = some c2 → c2.parent = h → h2 = h) ∧
      (s.destroy_body h).body_set.get h = none ∧
      (s.destroy_body h).collider_set.get h = none := by
  obtain ⟨hsh, hpar⟩ := hInv
  rw [Arena.get_eq_some] at hb
  obtain ⟨c, hc⟩ := slot_live_transfer s.body_set.slots s.collider_set.slots hsh h.1 h.2 b hb
  refine ⟨c, ?_, ?_, ?_, ?_, ?_⟩
  · rw [Arena.get_eq_some]
    exact hc
  · exact (hpar h.1 h.2 c hc).trans Prod.mk.eta
  · intro h2 c2 hget hpar2
    rw [Arena.get_eq_some] at hget
    have hp2 := hpar h2.1 h2.2 c2 hget
    rw [hpar2] at hp2
    exact Prod.mk.eta.symm.trans hp2.symm
  · exact Arena.get_remove s.body_set h
  · exact Arena.get_remove s.collider_set h

/-! ### Claims about the `Physics` registry -/

/-- C5 counterexample: `destroy_body` passes the body handle itself to the
collider removal. At a store whose slot `0` holds a collider parented to body
`(5, 0)` while its own collider sits at slot `1` parented to `(0, 0)`,
`destroy_body (0, 0)` removes the foreign collider at identifier `(0, 0)` and
leaves the body's own collider in place. -/
theorem destroy_body_removes_at_body_handle :
    (Physics.mk ⟨[(0, some (RigidBody.mk (0, 0) 10 1 BodyStatus.Dynamic))]⟩
        ⟨[(0, some (Collider.mk (1, 1) 0 0 (some ObjectData.Ground) (5, 0) 0)),
          (0, some (Collider.mk (1, 1) 0 0 (some ObjectData.Player) (0, 0) 0))]⟩).collider_set.get
        (0, 0) = some (Collider.mk (1, 1) 0 0 (some ObjectData.Ground) (5, 0) 0) ∧
    (Collider.mk (1, 1) 0 0 (some ObjectData.Ground) (5, 0) 0).parent ≠ ((0, 0) : Handle) ∧
    (Collider.mk (1, 1) 0 0 (some ObjectData.Player) (0, 0) 0).parent = ((0, 0) : Handle) ∧
    ((Physics.mk ⟨[(0, some (RigidBody.mk (0, 0) 10 1 BodyStatus.Dynamic))]⟩
        ⟨[(0, some (Collider.mk (1, 1) 0 0 (some ObjectData.Ground) (5, 0) 0)),
          (0, some (Collider.mk (1, 1) 0 0 (some ObjectData.Player) (0, 0) 0))]⟩).destroy_body
        (0, 0)).collider_set.get (0, 0) = none ∧
    ((Physics.mk ⟨[(0, some (RigidBody.mk (0, 0) 10 1 BodyStatus.Dynamic))]⟩
        ⟨[(0, some (Collider.mk (1, 1) 0 0 (some ObjectData.Ground) (5, 0) 0)),
          (0, some (Collider.mk (1, 1) 0 0 (some ObjectData.Player) (0, 0) 0))]⟩).destroy_body
        (0, 0)).collider_set.get (1, 0)
      = some (Collider.mk (1, 1) 0 0 (some ObjectData.Player) (0, 0) 0) := by
  refine ⟨rfl, ?_, rfl, rfl, rfl⟩
  intro hEq
  exact absurd (congrArg Prod.fst hEq) (by norm_num)

/-- C5 (amended): in every state reachable through the registry's
`create_*` / `destroy_body` operations, the collider stored at the identifier
equal to a live body handle `h` is that body's own collider (its parent is
`h`, and no other live collider is parented to `h`), so `destroy_body h` —
which removes the body and the collider at the same identifier `h` — removes
the body and its own collider. -/
theorem destroy_body_removes_own_collider (ops : List PhysOp) (h : Handle)
    (b : RigidBody) (hb : (Physics.new.runOps ops).body_set.get h = some b) :
    ∃ c : Collider,
      (Physics.new.runOps ops).collider_set.get h = some c ∧ c.parent = h ∧
      (∀ h2 c2, (Physics.new.runOps ops).collider_set.get h2 = some c2 →
        c2.parent = h → h2 = h) ∧
      ((Physics.new.runOps ops).destroy_body h).body_set.get h = none ∧
      ((Physics.new.runOps ops).destroy_body h).collider_set.get h = none :=
  physInv_destroy_own (Physics.new.runOps ops)
    (physInv_runOps ops Physics.new physInv_new) h b hb

/-- Witness for C5 (amended): one `create_player` from the empty registry. -/
theorem destroy_body_removes_own_collider_witness :
    ∃ c : Collider,
      (Physics.new.runOps [PhysOp.player (0, 0) 1 1]).collider_set.get (0, 0) = some c ∧
      c.parent = (0, 0) ∧
      (∀ h2 c2, (Physics.new.runOps [PhysOp.player (0, 0) 1 1]).collider_set.get h2
          = some c2 → c2.parent = (0, 0) → h2 = (0, 0)) ∧
      ((Physics.new.runOps [PhysOp.player (0, 0) 1 1]).destroy_body (0, 0)).body_set.get
        (0, 0) = none ∧
      ((Physics.new.runOps [PhysOp.player (0, 0) 1 1]).destroy_body (0, 0)).collider_set.get
        (0, 0) = none :=
  destroy_body_removes_own_collider [PhysOp.player (0, 0) 1 1] (0, 0)
    (RigidBody.mk (0, 0) 10 1 BodyStatus.Dynamic) rfl

/-- C6: `get_rigid_body` fails fatally with the source's "Body not found!"
diagnostic whenever the handle does not resolve; in particular after
`destroy_body h` the handle `h` never resolves to any body again. -/
theorem get_rigid_body_fatal_after_destroy (s : Physics) (h : Handle) :
    (s.body_set.get h = none → s.get_rigid_body h = Except.error "Body not found!") ∧
    (s.destroy_body h).get_rigid_body h = Except.error "Body not found!" ∧
    ∀ b : RigidBody, (s.destroy_body h).get_rigid_body h ≠ Except.ok b := by
  have hrem : (s.destroy_body h).body_set.get h = none := Arena.get_remove s.body_set h
  refine ⟨?_, ?_, ?_⟩
  · intro hn
    simp [Physics.get_rigid_body, hn]
  · simp [Physics.get_rigid_body, hrem]
  · intro b
    simp [Physics.get_rigid_body, hrem]

/-- Witness for C6 at the registry holding one player body, destroyed. -/
theorem get_rigid_body_fatal_after_destroy_witness :
    ((Physics.new.create_player (0, 0) 1 1).1.body_set.get (5, 5) = none →
      (Physics.new.create_player (0, 0) 1 1).1.get_rigid_body (5, 5)
        = Except.error "Body not found!") ∧
    ((Physics.new.create_player (0, 0) 1 1).1.destroy_body (5, 5)).get_rigid_body (5, 5)
      = Except.error "Body not found!" ∧
    ∀ b : RigidBody,
      ((Physics.new.create_player (0, 0) 1 1).1.destroy_body (5, 5)).get_rigid_body (5, 5)
        ≠ Except.ok b :=
  get_rigid_body_fatal_after_destroy (Physics.new.create_player (0, 0) 1 1).1 (5, 5)

/-- C7: from any state, `create_player`, `create_enemy`, `create_barrel` and
`create_bullet` given the same position and size return the same handle,
produce identical body stores (a dynamic body of mass `10`, linear damping
`1`), and produce collider stores that each insert the same collider record —
half-extents `(w/2 - 0.01, h/2 - 0.01)`, zero restitution and friction,
parented at the returned handle — differing only in the `ObjectData` tag. -/
theorem create_kinds_differ_only_by_tag (s : Physics) (pos : ℚ × ℚ) (w h : Nat) :
    ∃ c : Collider,
      (s.create_enemy pos w h).2 = (s.create_player pos w h).2 ∧
      (s.create_barrel pos w h).2 = (s.create_player pos w h).2 ∧
      (s.create_bullet pos w h).2 = (s.create_player pos w h).2 ∧
      (s.create_enemy pos w h).1.body_set = (s.create_player pos w h).1.body_set ∧
      (s.create_barrel pos w h).1.body_set = (s.create_player pos w h).1.body_set ∧
      (s.create_bullet pos w h).1.body_set = (s.create_player pos w h).1.body_set ∧
      (s.create_player pos w h).1.body_set.get (s.create_player pos w h).2
        = some (RigidBody.mk pos 10 1 BodyStatus.Dynamic) ∧
      c.halfExtents = ((w : ℚ) / 2 - 1/100, (h : ℚ) / 2 - 1/100) ∧
      c.restitution = 0 ∧
      c.friction = 0 ∧
      c.userData = some ObjectData.Player ∧
      c.parent = (s.create_player pos w h).2 ∧
      (s.create_player pos w h).1.collider_set = (s.collider_set.insert c).1 ∧
      (s.create_enemy pos w h).1.collider_set
        = (s.collider_set.insert { c with userData := some ObjectData.Enemy }).1 ∧
      (s.create_barrel pos w h).1.collider_set
        = (s.collider_set.insert { c with userData := some ObjectData.Barrel }).1 ∧
      (s.create_bullet pos w h).1.collider_set
        = (s.collider_set.insert { c with userData := some ObjectData.Bullet }).1 := by
  refine ⟨Collider.mk ((w : ℚ) / 2 - 1/100, (h : ℚ) / 2 - 1/100) 0 0
    (some ObjectData.Player)
    (s.body_set.insert (RigidBody.mk pos 10 1 BodyStatus.Dynamic)).2 0,
    rfl, rfl, rfl, rfl, rfl, rfl, ?_, rfl, rfl, rfl, rfl, rfl, rfl, rfl, rfl, rfl⟩
  exact Arena.get_insert_self s.body_set (RigidBody.mk pos 10 1 BodyStatus.Dynamic)
